import Mathlib

/-!
Shallow embedding of the debt-recovery conversation system
(`app/services/compliance_service.py`, `app/services/conversation_service.py`,
`app/services/llm_service.py`, `app/models/*`), together with proofs about
the contact-compliance gate, the response validator, identity verification,
and payment-plan derivation.

Modelling conventions:
* Python `float` money amounts are modelled as `ℚ` (the claims under study
  are structural, not about binary rounding).
* `datetime` values are split into what the code actually inspects: an
  abstract `Nat` timestamp where only ordering/equality matters, a
  `TimeCtx` carrying the weekday and the time of day (seconds since
  midnight) for the contact-window check, and a calendar `Date`
  (year/month/day) for payment schedules.
* Python exceptions are `Except`/`Option` results; a SQLAlchemy session is
  modelled by explicit pending values that are folded into the persistent
  `Db` only at `commit` (an uncommitted session is rolled back on close).
-/

namespace DebtRecovery

/-- `ConversationState` enum from `app/models/schemas.py`. -/
inductive ConversationState where
  | initiated
  | identity_verification
  | active_negotiation
  | payment_processing
  | escalated
  | closed
  | opted_out
deriving DecidableEq, Repr

/-- `ActionType` enum from `app/models/pydantic_models.py`. -/
inductive ActionType where
  | inform
  | collect_payment
  | propose_plan
  | acknowledge
  | request_info
  | escalate
  | close
  | verify_identity
deriving DecidableEq, Repr

/-- `PlanType` enum from `app/models/pydantic_models.py`. -/
inductive PlanType where
  | installment
  | settlement
  | one_time
deriving DecidableEq, Repr

/-- `PaymentPlanType` enum from `app/models/schemas.py`. -/
inductive PaymentPlanType where
  | full_payment
  | installment
  | settlement
deriving DecidableEq, Repr

/-- `MessageType` enum from `app/models/schemas.py`. -/
inductive MessageType where
  | user
  | assistant
  | system
deriving DecidableEq, Repr

/-- `ComplianceCheck` pydantic model (`check_name`, `passed`, `details`,
`severity`, the latter defaulting to `"info"`). -/
structure ComplianceCheck where
  check_name : String
  passed : Bool
  details : String
  severity : String := "info"
deriving DecidableEq, Repr

/-- The fields of the `Borrower` ORM row that the embedded code reads.
`opt_out_date` is an optional abstract timestamp. -/
structure Borrower where
  id : Nat
  ssn_last_four : String
  opt_out_date : Option Nat
deriving DecidableEq, Repr

/-- The fields of the `Loan` ORM row that the embedded code reads. -/
structure Loan where
  id : Nat
  borrower_id : Nat
  current_balance : ℚ
  last_payment_amount : Option ℚ
deriving DecidableEq, Repr

/-- `Conversation` ORM row (the fields the embedded code reads or writes). -/
structure Conversation where
  id : Nat
  conversation_id : String
  borrower_id : Nat
  loan_id : Nat
  state : ConversationState
  channel : String
  identity_verified : Bool
  verification_attempts : Nat
  escalation_reason : Option String
  escalation_date : Option Nat
  last_activity : Nat
  created_at : Nat
deriving DecidableEq, Repr

/-- `Message` ORM row (fields the embedded code writes). -/
structure MessageRec where
  conversation_id : Nat
  message_type : MessageType
  content : String
  confidence_score : Option ℚ := none
  compliance_flags : List String := []
deriving DecidableEq, Repr

/-- The settlement ceiling 0.70 as an exact rational, given as a reduced
numerator/denominator literal so that comparisons against it compute. -/
def ratio70 : ℚ := ⟨7, 10, by decide, by decide⟩

/-- `ratio70` is the rational 7/10. -/
theorem ratio70_eq : ratio70 = 7 / 10 := by
  rw [← Rat.num_div_den ratio70]; norm_num [ratio70]

/-- The 1-cent tolerance 0.01 as an exact rational literal. -/
def centTolerance : ℚ := ⟨1, 100, by decide, by decide⟩

/-- `centTolerance` is the rational 1/100. -/
theorem centTolerance_eq : centTolerance = 1 / 100 := by
  rw [← Rat.num_div_den centTolerance]; norm_num [centTolerance]

/-- Configuration loaded in `ComplianceService.__init__` (defaults from the
environment fallbacks in the source). -/
structure ComplianceConfig where
  max_settlement_percentage : ℚ := ratio70
  max_installment_months : Nat := 12
  contact_hours_start : String := "08:00"
  contact_hours_end : String := "21:00"
  max_daily_contact_attempts : Nat := 3
  max_weekly_contact_attempts : Nat := 7
  prohibited_days : List Nat := [6]
deriving DecidableEq, Repr

/-- The time-dependent inputs of a turn: weekday (0 = Monday .. 6 = Sunday),
time of day in seconds since midnight, and the abstract timestamps the
frequency checks compare `created_at` against. -/
structure TimeCtx where
  weekday : Nat
  timeOfDay : Nat
  todayStart : Nat
  todayEnd : Nat
  weekStart : Nat
  now : Nat
deriving DecidableEq, Repr

/-- Two-digit decimal parse helper for `parseTimeHHMM`. -/
def twoDigits (a b : Char) : Option Nat :=
  if a.isDigit && b.isDigit then
    some ((a.toNat - 48) * 10 + (b.toNat - 48))
  else none

/-- Model of Python `time.fromisoformat` restricted to the `"HH:MM"` grammar
used by the configuration (any other shape raises `ValueError`, i.e. `none`);
the result is seconds since midnight. -/
def parseTimeHHMM (s : String) : Option Nat :=
  match s.toList with
  | [a, b, c, d, e] =>
    if c = ':' then
      match twoDigits a b, twoDigits d e with
      | some h, some m => if h ≤ 23 && m ≤ 59 then some (h * 3600 + m * 60) else none
      | _, _ => none
    else none
  | _ => none

/-- `ComplianceService._check_opt_out_status`. -/
def checkOptOutStatus (b : Borrower) : ComplianceCheck :=
  match b.opt_out_date with
  | some d =>
    { check_name := "opt_out_status", passed := false,
      details := s!"Borrower opted out on {d}", severity := "critical" }
  | none =>
    { check_name := "opt_out_status", passed := true,
      details := "Borrower has not opted out" }

/-- `ComplianceService._check_contact_time`: prohibited-weekday test first,
then the parsed window with a closed bound on both ends; a `ValueError`
while parsing falls through to the passing result. -/
def checkContactTime (cfg : ComplianceConfig) (t : TimeCtx) : ComplianceCheck :=
  if t.weekday ∈ cfg.prohibited_days then
    { check_name := "contact_time", passed := false,
      details := "Contact not allowed on Sundays", severity := "warning" }
  else
    match parseTimeHHMM cfg.contact_hours_start, parseTimeHHMM cfg.contact_hours_end with
    | some start_time, some end_time =>
      if ¬ (start_time ≤ t.timeOfDay ∧ t.timeOfDay ≤ end_time) then
        { check_name := "contact_time", passed := false,
          details := s!"Contact only allowed between {cfg.contact_hours_start} and {cfg.contact_hours_end}",
          severity := "warning" }
      else
        { check_name := "contact_time", passed := true,
          details := "Contact time is within allowed hours" }
    | _, _ =>
      { check_name := "contact_time", passed := true,
        details := "Contact time is within allowed hours" }

/-- `ComplianceService._check_daily_contact_frequency`, with the count of
conversations created today supplied by the caller (the source obtains it
from a database query). -/
def checkDailyContactFrequency (cfg : ComplianceConfig) (daily_conversations : Nat) :
    ComplianceCheck :=
  if daily_conversations ≥ cfg.max_daily_contact_attempts then
    { check_name := "daily_contact_frequency", passed := false,
      details := s!"Maximum daily contact attempts ({cfg.max_daily_contact_attempts}) exceeded",
      severity := "warning" }
  else
    { check_name := "daily_contact_frequency", passed := true,
      details := s!"Daily contact attempts: {daily_conversations}/{cfg.max_daily_contact_attempts}" }

/-- `ComplianceService._check_weekly_contact_frequency`, with the trailing
7-day count supplied by the caller. -/
def checkWeeklyContactFrequency (cfg : ComplianceConfig) (weekly_conversations : Nat) :
    ComplianceCheck :=
  if weekly_conversations ≥ cfg.max_weekly_contact_attempts then
    { check_name := "weekly_contact_frequency", passed := false,
      details := s!"Maximum weekly contact attempts ({cfg.max_weekly_contact_attempts}) exceeded",
      severity := "warning" }
  else
    { check_name := "weekly_contact_frequency", passed := true,
      details := s!"Weekly contact attempts: {weekly_conversations}/{cfg.max_weekly_contact_attempts}" }

/-- Result of `ComplianceService.check_contact_compliance`: the returned
dict's `allowed`/`reason` fields, plus the list of checks evaluated before
returning (the local `checks` list at the return point). -/
structure GateResult where
  allowed : Bool
  reason : Option String
  performed : List ComplianceCheck
deriving DecidableEq, Repr

/-- `ComplianceService.check_contact_compliance`: runs the four checks in
order, returning at the first failure. -/
def checkContactCompliance (cfg : ComplianceConfig) (b : Borrower) (t : TimeCtx)
    (daily_count weekly_count : Nat) : GateResult :=
  let opt_out_check := checkOptOutStatus b
  if ¬ opt_out_check.passed then
    { allowed := false, reason := some "Borrower has opted out of communications",
      performed := [opt_out_check] }
  else
    let time_check := checkContactTime cfg t
    if ¬ time_check.passed then
      { allowed := false, reason := some time_check.details,
        performed := [opt_out_check, time_check] }
    else
      let daily_check := checkDailyContactFrequency cfg daily_count
      if ¬ daily_check.passed then
        { allowed := false, reason := some daily_check.details,
          performed := [opt_out_check, time_check, daily_check] }
      else
        let weekly_check := checkWeeklyContactFrequency cfg weekly_count
        if ¬ weekly_check.passed then
          { allowed := false, reason := some weekly_check.details,
            performed := [opt_out_check, time_check, daily_check, weekly_check] }
        else
          { allowed := true, reason := none,
            performed := [opt_out_check, time_check, daily_check, weekly_check] }

/-- The `plan_data` dict consumed by
`ComplianceService.validate_payment_plan` (`.get` with defaults). -/
structure PlanData where
  type : Option String
  amount : Option ℚ
  installments : Option Nat
deriving DecidableEq, Repr

/-- `ComplianceService.validate_payment_plan`: settlement-percentage check
(with the zero/negative-balance guard mapping the ratio to 0), installment
duration check, and minimum-payment check. The human-readable `details`
strings elide Python's percent formatting; no claim depends on them. -/
def validatePaymentPlanCompliance (cfg : ComplianceConfig) (plan_data : PlanData)
    (loan_balance : ℚ) : List ComplianceCheck :=
  let settlementChecks :=
    if plan_data.type = some "settlement" then
      let settlement_amount := plan_data.amount.getD 0
      let settlement_percentage := if loan_balance > 0 then settlement_amount / loan_balance else 0
      if settlement_percentage > cfg.max_settlement_percentage then
        [{ check_name := "settlement_percentage", passed := false,
           details := "Settlement percentage exceeds maximum", severity := "error" }]
      else
        [{ check_name := "settlement_percentage", passed := true,
           details := "Settlement percentage is within limits" }]
    else []
  let installmentChecks :=
    if plan_data.type = some "installment" then
      let installments := plan_data.installments.getD 0
      let durationCheck :=
        if installments > cfg.max_installment_months then
          { check_name := "installment_duration", passed := false,
            details := "Installment plan duration exceeds maximum", severity := "error" }
        else
          { check_name := "installment_duration", passed := true,
            details := "Installment plan duration is within limits" }
      let payment_amount := plan_data.amount.getD 0
      let minimumCheck :=
        if payment_amount < 25 then
          { check_name := "minimum_payment", passed := false,
            details := "Payment amount is below minimum", severity := "error" }
        else
          { check_name := "minimum_payment", passed := true,
            details := "Payment amount meets minimum requirements" }
      [durationCheck, minimumCheck]
    else []
  settlementChecks ++ installmentChecks

/-- Calendar date (`datetime` restricted to the fields the schedule logic
reads and writes). -/
structure Date where
  year : Nat
  month : Nat
  day : Nat
deriving DecidableEq, Repr

/-- Gregorian leap-year rule (as in Python's `calendar`/`datetime`). -/
def isLeapYear (y : Nat) : Bool :=
  (y % 4 = 0 && y % 100 ≠ 0) || y % 400 = 0

/-- Number of days in a month of a given year. -/
def daysInMonth (y m : Nat) : Nat :=
  if m = 2 then (if isLeapYear y then 29 else 28)
  else if m = 4 || m = 6 || m = 9 || m = 11 then 30
  else 31

/-- Successor day with month/year rollover. -/
def nextDay (d : Date) : Date :=
  if d.day < daysInMonth d.year d.month then
    { d with day := d.day + 1 }
  else if d.month < 12 then
    { year := d.year, month := d.month + 1, day := 1 }
  else
    { year := d.year + 1, month := 1, day := 1 }

/-- `date + timedelta(days := n)`. -/
def addDays (d : Date) : Nat → Date
  | 0 => d
  | n + 1 => addDays (nextDay d) n

/-- The monthly branch of the schedule loop in
`ConversationService._create_scheduled_payments`: December rolls to January
of the next year, otherwise `date.replace(month + 1)`, which raises
`ValueError` (here `none`) when the day does not exist in the next month. -/
def monthlyStep (d : Date) : Option Date :=
  if d.month = 12 then
    some { year := d.year + 1, month := 1, day := d.day }
  else if d.day ≤ daysInMonth d.year (d.month + 1) then
    some { year := d.year, month := d.month + 1, day := d.day }
  else none

/-- One frequency step of the schedule loop (weekly, bi-weekly, else
monthly). -/
def stepDate (freq : String) (d : Date) : Option Date :=
  if freq = "weekly" then some (addDays d 7)
  else if freq = "bi-weekly" then some (addDays d 14)
  else monthlyStep d

/-- Does the character list start with the given needle? -/
def charsStartWith : List Char → List Char → Bool
  | _, [] => true
  | [], _ :: _ => false
  | a :: s, b :: t => a = b && charsStartWith s t

/-- Does the character list contain the needle as a contiguous run? -/
def charsContain (needle : List Char) : List Char → Bool
  | [] => needle.isEmpty
  | a :: s => charsStartWith (a :: s) needle || charsContain needle s

/-- Python's `needle in haystack` on strings. -/
def strHas (haystack needle : String) : Bool :=
  charsContain needle.toList haystack.toList

/-- Python's `str.lower()` (ASCII suffices for the fixed word lists),
written over the character list so that it computes by kernel reduction. -/
def lowerStr (s : String) : String := String.mk (s.data.map Char.toLower)

/-- `StructuredPlan` pydantic model; `first_due_date` is held already parsed
(the pydantic validator rejects strings not in `YYYY-MM-DD` form). -/
structure StructuredPlan where
  type : PlanType
  amount : ℚ
  installments : Option Nat := none
  first_due_date : Option Date := none
  frequency : Option String := some "monthly"
deriving DecidableEq, Repr

/-- `AssistantResponse` pydantic model (the `metadata` dict is dropped; the
only key the embedded flow reads from it is the optional escalation reason,
which is threaded separately where needed). -/
structure AssistantResponse where
  action : ActionType
  message_to_user : String
  structured_plan : Option StructuredPlan := none
  confidence : ℚ
  escalation : Bool := false
  compliance_checks : List String := []
deriving DecidableEq, Repr

/-- `LLMService._validate_payment_plan`: for a settlement plan only
positivity of the amount is checked (the source comments that the balance
needed for the percentage is unavailable); for an installment plan the
month ceiling (only when `installments` is truthy) and the $25 minimum. -/
def validatePaymentPlanLLM (cfg : ComplianceConfig) (plan : StructuredPlan) : List String :=
  let settlementErrors :=
    if plan.type = PlanType.settlement then
      if plan.amount ≤ 0 then ["Settlement amount must be positive"] else []
    else []
  let installmentErrors :=
    if plan.type = PlanType.installment then
      (match plan.installments with
       | some n =>
         if n ≠ 0 ∧ n > cfg.max_installment_months then
           [s!"Installment plan exceeds maximum {cfg.max_installment_months} months"]
         else []
       | none => []) ++
      (if plan.amount < 25 then ["Minimum payment amount is $25"] else [])
    else []
  settlementErrors ++ installmentErrors

/-- The prohibited-word list of `LLMService._check_compliance`. -/
def prohibitedWordsLLM : List String :=
  ["threaten", "sue", "arrest", "jail", "garnish", "seize"]

/-- `LLMService._check_compliance`: the identity-verification gate on
account details (the only key read from `conversation_context` is
`identity_verified`), then the prohibited-word scan in list order. -/
def checkComplianceLLM (r : AssistantResponse) (identity_verified : Bool) : List String :=
  let idErrors :=
    if ¬ identity_verified ∧
       r.action ∈ [ActionType.inform, ActionType.collect_payment, ActionType.propose_plan] ∧
       (strHas (lowerStr r.message_to_user) "balance" || strHas r.message_to_user "$") then
      ["Cannot share account details without identity verification"]
    else []
  let wordErrors :=
    (prohibitedWordsLLM.filter (fun w => strHas (lowerStr r.message_to_user) w)).map
      (fun w => s!"Prohibited language detected: {w}")
  idErrors ++ wordErrors

/-- The combined `validation_errors` list assembled in
`LLMService._validate_response`. -/
def validationErrors (cfg : ComplianceConfig) (r : AssistantResponse)
    (identity_verified : Bool) : List String :=
  (match r.structured_plan with
   | some p => validatePaymentPlanLLM cfg p
   | none => []) ++ checkComplianceLLM r identity_verified

/-- The neutral hand-off text substituted by the validator. -/
def handoffMessage : String :=
  "I need to connect you with a specialist who can better assist with your request. They will contact you shortly."

/-- `LLMService._validate_response`: if any violation was collected and the
proposal did not already request escalation, rewrite it into a forced
escalation. -/
def validateResponse (cfg : ComplianceConfig) (r : AssistantResponse)
    (identity_verified : Bool) : AssistantResponse :=
  if validationErrors cfg r identity_verified ≠ [] ∧ ¬ r.escalation then
    { r with
      action := ActionType.escalate,
      escalation := true,
      message_to_user := handoffMessage,
      structured_plan := none,
      compliance_checks := r.compliance_checks ++ ["validation_failed"] }
  else r

/-- `LLMService._get_fallback_response` (fixed safe proposal substituted on
any generation failure). -/
def fallbackResponse : AssistantResponse :=
  { action := ActionType.escalate,
    message_to_user := "I'm experiencing technical difficulties and want to ensure you receive the best service. Let me connect you with a specialist who can assist you immediately.",
    structured_plan := none,
    confidence := 1,
    escalation := true,
    compliance_checks := ["technical_failure_escalation"] }

/-- `LLMService.process_conversation` with the external generator outcome as
input: `none` stands for any exception in the retrieve/prompt/call/parse
pipeline (the whole `try` block falls back); a parsed proposal is passed
through `_validate_response`. -/
def processConversationLLM (cfg : ComplianceConfig) (generated : Option AssistantResponse)
    (identity_verified : Bool) : AssistantResponse :=
  match generated with
  | none => fallbackResponse
  | some r => validateResponse cfg r identity_verified

/-- `ConversationService.__init__`'s `max_verification_attempts`. -/
def maxVerificationAttempts : Nat := 3

/-- The `verification_data` dict of `ConversationService.verify_identity`:
an optional claimed SSN tail and an optional claimed last-payment amount,
whose inner `none` stands for a string `float()` refuses (`ValueError`). -/
structure VerificationData where
  last_four_ssn : Option String := none
  last_payment_amount : Option (Option ℚ) := none
deriving DecidableEq, Repr

/-- The dict returned by `ConversationService.verify_identity`. -/
structure VerifyResult where
  verified : Bool
  message : String
  attempts_remaining : Nat
deriving DecidableEq, Repr

/-- The `verification_passed` computation of
`ConversationService.verify_identity`: each supplied fact must match (SSN
tail exactly; amount within 0.01 of the recorded value, unparsable input
failing); an absent fact is not checked. -/
def factsMatch (loan : Loan) (b : Borrower) (d : VerificationData) : Bool :=
  (match d.last_four_ssn with
   | some s => s = b.ssn_last_four
   | none => true) &&
  (match d.last_payment_amount with
   | some (some provided) => ¬ |provided - loan.last_payment_amount.getD 0| > centTolerance
   | some none => false
   | none => true)

/-- `ConversationService._escalate_conversation`. -/
def escalateConversation (c : Conversation) (reason : String) (now : Nat) : Conversation :=
  { c with
    state := ConversationState.escalated,
    escalation_reason := some reason,
    escalation_date := some now }

/-- `ConversationService.verify_identity` on an already-looked-up
conversation/loan/borrower triple: the lockout branch first, then the fact
check with the attempt counter incremented on every non-locked call. -/
def verifyIdentity (c : Conversation) (loan : Loan) (b : Borrower)
    (d : VerificationData) (now : Nat) : Conversation × VerifyResult :=
  if c.verification_attempts ≥ maxVerificationAttempts then
    (escalateConversation c "Maximum verification attempts exceeded" now,
     { verified := false,
       message := "Maximum verification attempts exceeded. Escalating to human agent.",
       attempts_remaining := 0 })
  else
    let c1 := { c with verification_attempts := c.verification_attempts + 1 }
    if factsMatch loan b d then
      ({ c1 with identity_verified := true, state := ConversationState.active_negotiation },
       { verified := true, message := "Identity verified successfully.",
         attempts_remaining := maxVerificationAttempts - c1.verification_attempts })
    else
      (c1,
       { verified := false,
         message := s!"Identity verification failed. {maxVerificationAttempts - c1.verification_attempts} attempts remaining.",
         attempts_remaining := maxVerificationAttempts - c1.verification_attempts })

/-- A sequence of `verify_identity` calls against the same conversation
(each call commits its state change, the next call reads it back). -/
def verifySeq (loan : Loan) (b : Borrower) (now : Nat) :
    Conversation → List VerificationData → Conversation × List VerifyResult
  | c, [] => (c, [])
  | c, d :: ds =>
    let step := verifyIdentity c loan b d now
    let rest := verifySeq loan b now step.1 ds
    (rest.1, step.2 :: rest.2)

/-- `PaymentPlan` ORM row (fields written by
`ConversationService._create_payment_plan`). -/
structure PaymentPlanRec where
  id : Nat
  loan_id : Nat
  conversation_id : Nat
  plan_type : PaymentPlanType
  total_amount : ℚ
  installment_amount : ℚ
  number_of_installments : Nat
  first_payment_date : Date
  payment_frequency : String
  status : String
deriving DecidableEq, Repr

/-- `ScheduledPayment` ORM row (fields written by
`ConversationService._create_scheduled_payments`). -/
structure ScheduledPaymentRec where
  payment_plan_id : Nat
  installment_number : Nat
  due_date : Date
  amount : ℚ
  status : String
deriving DecidableEq, Repr

/-- The `plan_type_map` dict of `ConversationService._create_payment_plan`. -/
def planTypeMap : PlanType → PaymentPlanType
  | PlanType.installment => PaymentPlanType.installment
  | PlanType.settlement => PaymentPlanType.settlement
  | PlanType.one_time => PaymentPlanType.full_payment

/-- Python `installments or 1` (both `None` and `0` are falsy). -/
def orOneNat : Option Nat → Nat
  | some n => if n = 0 then 1 else n
  | none => 1

/-- Python `frequency or 'monthly'` (both `None` and `""` are falsy). -/
def orMonthly : Option String → String
  | some s => if s = "" then "monthly" else s
  | none => "monthly"

/-- Python truthiness of `structured_plan.installments`. -/
def truthyInstallments : Option Nat → Bool
  | some n => n ≠ 0
  | none => false

/-- The loop body of `ConversationService._create_scheduled_payments`:
each iteration records a row for the current date and then advances the
date by the frequency — also after the final row, so a failing date
computation aborts the whole build (`none`). -/
def buildSchedule (planId : Nat) (freq : String) (amount : ℚ) :
    Date → Nat → Nat → Option (List ScheduledPaymentRec)
  | _, _, 0 => some []
  | d, i, k + 1 =>
    match stepDate freq d with
    | none => none
    | some d' =>
      (buildSchedule planId freq amount d' (i + 1) k).map
        (fun rest =>
          { payment_plan_id := planId, installment_number := i + 1,
            due_date := d, amount := amount, status := "pending" } :: rest)

/-- `ConversationService._create_scheduled_payments`. -/
def createScheduledPayments (p : PaymentPlanRec) : Option (List ScheduledPaymentRec) :=
  buildSchedule p.id p.payment_frequency p.installment_amount
    p.first_payment_date 0 p.number_of_installments

/-- The `PaymentPlan(...)` row built at the top of
`ConversationService._create_payment_plan`. Note that the source assigns
`structured_plan.amount` to both `total_amount` and `installment_amount` —
the conditional in the source has identical branches. -/
def mkPaymentPlanRec (loanId convId planId : Nat) (sp : StructuredPlan)
    (nowDate : Date) : PaymentPlanRec :=
  { id := planId, loan_id := loanId, conversation_id := convId,
    plan_type := planTypeMap sp.type,
    total_amount := sp.amount,
    installment_amount := sp.amount,
    number_of_installments := orOneNat sp.installments,
    first_payment_date := sp.first_due_date.getD (addDays nowDate 7),
    payment_frequency := orMonthly sp.frequency,
    status := "proposed" }

/-- `ConversationService._create_payment_plan`, continued: scheduled rows
are generated only for installment plans with a truthy installment count.
`none` propagates a `ValueError` from the schedule's date arithmetic. -/
def createPaymentPlan (loanId convId planId : Nat) (sp : StructuredPlan)
    (nowDate : Date) : Option (PaymentPlanRec × List ScheduledPaymentRec) :=
  let plan := mkPaymentPlanRec loanId convId planId sp nowDate
  if sp.type = PlanType.installment ∧ truthyInstallments sp.installments then
    (createScheduledPayments plan).map (fun rows => (plan, rows))
  else
    some (plan, [])

/-- Persistent store contents (committed rows only). -/
structure Db where
  conversations : List Conversation
  messages : List MessageRec
  loans : List Loan
  borrowers : List Borrower
  paymentPlans : List PaymentPlanRec
  scheduledPayments : List ScheduledPaymentRec
deriving DecidableEq, Repr

/-- `db.query(Loan).filter(Loan.id == loan_id).first()`. -/
def findLoan (db : Db) (loan_id : Nat) : Option Loan :=
  db.loans.find? (fun l => l.id == loan_id)

/-- `db.query(Borrower).filter(Borrower.id == borrower_id).first()`. -/
def findBorrower (db : Db) (borrower_id : Nat) : Option Borrower :=
  db.borrowers.find? (fun b => b.id == borrower_id)

/-- The active-conversation query of
`ConversationService._get_or_create_conversation`. -/
def findActiveConversation (db : Db) (loan_id : Nat) (session_id : String) :
    Option Conversation :=
  db.conversations.find? (fun c =>
    c.loan_id == loan_id && c.conversation_id == session_id &&
    !(c.state == ConversationState.closed) && !(c.state == ConversationState.opted_out))

/-- `ConversationService._get_or_create_conversation`: an existing active
conversation gets its `last_activity` refreshed (a pending session change,
committed only at turn end); otherwise a new row is built with the
defaulted fields, its id assigned at `flush`. The `Bool` records whether
the conversation is a new pending row. -/
def getOrCreateConversation (db : Db) (loan_id : Nat) (session_id : String)
    (channel : String) (fresh_uuid : String) (now : Nat) :
    Except String (Conversation × Bool) :=
  match findActiveConversation db loan_id session_id with
  | some c => Except.ok ({ c with last_activity := now }, false)
  | none =>
    match findLoan db loan_id with
    | none => Except.error s!"Loan {loan_id} not found"
    | some loan =>
      Except.ok
        ({ id := db.conversations.length + 1,
           conversation_id := if session_id = "" then fresh_uuid else session_id,
           borrower_id := loan.borrower_id,
           loan_id := loan_id,
           state := ConversationState.initiated,
           channel := channel,
           identity_verified := false,
           verification_attempts := 0,
           escalation_reason := none,
           escalation_date := none,
           last_activity := now,
           created_at := now }, true)

/-- Write a (possibly new) conversation row into the conversation table. -/
def upsertConversation (convs : List Conversation) (isNew : Bool)
    (c : Conversation) : List Conversation :=
  if isNew then convs ++ [c]
  else convs.map (fun x => if x.id == c.id then c else x)

/-- Conversations of this borrower created today (the frequency query of
`_check_daily_contact_frequency`, evaluated over the session's view, which
includes a freshly flushed new conversation). -/
def countDailyConversations (convs : List Conversation) (borrower_id : Nat)
    (t : TimeCtx) : Nat :=
  (convs.filter (fun c =>
    c.borrower_id == borrower_id &&
    decide (t.todayStart ≤ c.created_at) && decide (c.created_at ≤ t.todayEnd))).length

/-- Conversations of this borrower created in the trailing 7 days. -/
def countWeeklyConversations (convs : List Conversation) (borrower_id : Nat)
    (t : TimeCtx) : Nat :=
  (convs.filter (fun c =>
    c.borrower_id == borrower_id && decide (t.weekStart ≤ c.created_at))).length

/-- `ConversationResponse` pydantic model (the fields the turn flow
populates; `session_data` is omitted, no claim reads it). -/
structure ConversationResponseRec where
  ok : Bool
  conversation_id : String
  assistant : AssistantResponse
  requires_action : Bool
  next_steps : List String
deriving DecidableEq, Repr

/-- `ConversationService._create_opted_out_response`. -/
def optedOutResponse (cid : String) : ConversationResponseRec :=
  { ok := false, conversation_id := cid,
    assistant :=
      { action := ActionType.close,
        message_to_user := "This contact has opted out of communications. No further messages will be sent.",
        confidence := 1, escalation := false,
        compliance_checks := ["opt_out_respected"] },
    requires_action := false, next_steps := [] }

/-- `ConversationService._create_compliance_blocked_response`. -/
def complianceBlockedResponse (cid reason : String) : ConversationResponseRec :=
  { ok := false, conversation_id := cid,
    assistant :=
      { action := ActionType.close,
        message_to_user := s!"Contact not allowed at this time: {reason}",
        confidence := 1, escalation := false,
        compliance_checks := ["contact_time_restriction"] },
    requires_action := false, next_steps := [] }

/-- `ConversationService._handle_assistant_action`. The escalation reason is
the default `'LLM requested escalation'`: the parser never places an
`escalation_reason` key into the response metadata, so `metadata.get`
always falls back to it. A failed schedule build (`none`) aborts the turn. -/
def handleAssistantAction (conv : Conversation) (loan : Loan)
    (ar : AssistantResponse) (planId : Nat) (nowDate : Date) (now : Nat) :
    Option (Conversation × Option (PaymentPlanRec × List ScheduledPaymentRec) ×
            ConversationResponseRec) :=
  let c1 := if ar.escalation then escalateConversation conv "LLM requested escalation" now else conv
  let planRes : Option (Option (PaymentPlanRec × List ScheduledPaymentRec)) :=
    match ar.structured_plan with
    | some sp => (createPaymentPlan loan.id conv.id planId sp nowDate).map some
    | none => some none
  match planRes with
  | none => none
  | some planOpt =>
    let next_steps :=
      (if ar.escalation then ["Conversation escalated to human agent"] else []) ++
      (match planOpt with
       | some pr => [s!"Payment plan created with ID: {pr.1.id}"]
       | none => []) ++
      (if ar.action = ActionType.verify_identity then ["Identity verification required"] else []) ++
      (if ar.action = ActionType.collect_payment then ["Payment processing required"] else [])
    let requires_action :=
      planOpt.isSome || ar.action == ActionType.verify_identity ||
        ar.action == ActionType.collect_payment
    some (c1, planOpt,
      { ok := true, conversation_id := conv.conversation_id, assistant := ar,
        requires_action := requires_action, next_steps := next_steps })

/-- `ConversationService._update_conversation_state`. -/
def updateConversationState (c : Conversation) (ar : AssistantResponse)
    (now : Nat) : Conversation :=
  let c' :=
    if ar.escalation then { c with state := ConversationState.escalated }
    else if ar.action = ActionType.verify_identity then
      { c with state := ConversationState.identity_verification }
    else if ar.action = ActionType.propose_plan ∨ ar.action = ActionType.collect_payment then
      { c with state := ConversationState.active_negotiation }
    else if ar.action = ActionType.close then
      { c with state := ConversationState.closed }
    else c
  { c' with last_activity := now }

/-- The non-time inputs of one turn of
`ConversationService.process_message`; `generated` is the external
generator's outcome consumed by `processConversationLLM`. -/
structure TurnInput where
  user_message : String
  loan_id : Nat
  session_id : String
  channel : String
  generated : Option AssistantResponse
  fresh_uuid : String
deriving DecidableEq, Repr

/-- `ConversationService.process_message`: one turn. All session writes are
pending values; the persistent `Db` changes only through the final commit,
so the opted-out and compliance-blocked returns (and every raised error)
leave the store untouched, matching rollback-on-close semantics for an
uncommitted session. -/
def processMessage (cfg : ComplianceConfig) (db : Db) (t : TimeCtx)
    (nowDate : Date) (inp : TurnInput) :
    Except String (ConversationResponseRec × Db) :=
  match getOrCreateConversation db inp.loan_id inp.session_id inp.channel inp.fresh_uuid t.now with
  | Except.error e => Except.error e
  | Except.ok (conv, isNew) =>
    if conv.state = ConversationState.opted_out then
      Except.ok (optedOutResponse conv.conversation_id, db)
    else
      match findLoan db inp.loan_id with
      | none => Except.error s!"Loan {inp.loan_id} not found"
      | some loan =>
        match findBorrower db loan.borrower_id with
        | none => Except.error s!"Borrower for loan {inp.loan_id} not found"
        | some borrower =>
          let sessionConvs := upsertConversation db.conversations isNew conv
          let gate := checkContactCompliance cfg borrower t
            (countDailyConversations sessionConvs borrower.id t)
            (countWeeklyConversations sessionConvs borrower.id t)
          if ¬ gate.allowed then
            Except.ok (complianceBlockedResponse conv.conversation_id (gate.reason.getD ""), db)
          else
            let userMsg : MessageRec :=
              { conversation_id := conv.id, message_type := MessageType.user,
                content := inp.user_message }
            let ar := processConversationLLM cfg inp.generated conv.identity_verified
            let planId := db.paymentPlans.length + 1
            match handleAssistantAction conv loan ar planId nowDate t.now with
            | none => Except.error "day is out of range for month"
            | some (c1, planOpt, resp) =>
              let assistantMsg : MessageRec :=
                { conversation_id := conv.id, message_type := MessageType.assistant,
                  content := ar.message_to_user,
                  confidence_score := some ar.confidence,
                  compliance_flags := ar.compliance_checks }
              let c2 := updateConversationState c1 ar t.now
              Except.ok (resp,
                { db with
                  conversations := upsertConversation db.conversations isNew c2,
                  messages := db.messages ++ [userMsg, assistantMsg],
                  paymentPlans := db.paymentPlans ++ (planOpt.map Prod.fst).toList,
                  scheduledPayments := db.scheduledPayments ++ (planOpt.map Prod.snd).getD [] })

/-! ## Theorems -/

/-- C6: for every debtor with `opt_out_date` set, the contact-compliance
gate returns Blocked with the opt-out reason, the failing opt-out check has
severity critical, and only the opt-out check was evaluated (it runs first
and short-circuits the remaining checks), regardless of the configuration,
the time context and the contact counts. -/
theorem opt_out_always_blocks (cfg : ComplianceConfig) (b : Borrower) (t : TimeCtx)
    (daily_count weekly_count : Nat) (h : b.opt_out_date.isSome) :
    (checkContactCompliance cfg b t daily_count weekly_count).allowed = false ∧
    (checkContactCompliance cfg b t daily_count weekly_count).reason =
      some "Borrower has opted out of communications" ∧
    (checkContactCompliance cfg b t daily_count weekly_count).performed =
      [checkOptOutStatus b] ∧
    (checkOptOutStatus b).passed = false ∧
    (checkOptOutStatus b).severity = "critical" := by
  obtain ⟨d, hd⟩ := Option.isSome_iff_exists.mp h
  simp [checkContactCompliance, checkOptOutStatus, hd]

/-- Witness for C6 at a concrete opted-out borrower. -/
theorem opt_out_always_blocks_witness :
    (Borrower.mk 1 "1234" (some 5)).opt_out_date.isSome = true ∧
    (checkContactCompliance {} (Borrower.mk 1 "1234" (some 5))
        (TimeCtx.mk 2 36000 0 100 0 50) 0 0).allowed = false :=
  ⟨by decide,
   (opt_out_always_blocks {} (Borrower.mk 1 "1234" (some 5))
     (TimeCtx.mk 2 36000 0 100 0 50) 0 0 (by decide)).1⟩

/-- C10: in `ComplianceService.validate_payment_plan`, a settlement plan
checked against a zero or negative loan balance takes the guarded branch
(the ratio is treated as 0 instead of dividing), so the
`settlement_percentage` check passes for every amount, however large. -/
theorem settlement_check_passes_on_nonpositive_balance (cfg : ComplianceConfig)
    (plan_data : PlanData) (loan_balance : ℚ)
    (hbal : loan_balance ≤ 0) (htype : plan_data.type = some "settlement")
    (hmax : 0 ≤ cfg.max_settlement_percentage) :
    validatePaymentPlanCompliance cfg plan_data loan_balance =
      [{ check_name := "settlement_percentage", passed := true,
         details := "Settlement percentage is within limits", severity := "info" }] := by
  have hng : ¬ loan_balance > 0 := not_lt.mpr hbal
  have hno : ¬ (0 : ℚ) > cfg.max_settlement_percentage := not_lt.mpr hmax
  simp [validatePaymentPlanCompliance, htype, hng, hno]

/-- Witness for C10: zero balance and a billion-unit settlement amount. -/
theorem settlement_check_passes_on_nonpositive_balance_witness :
    ((0 : ℚ) ≤ 0 ∧ (0 : ℚ) ≤ ComplianceConfig.max_settlement_percentage {}) ∧
    validatePaymentPlanCompliance {}
      (PlanData.mk (some "settlement") (some 1000000000) none) 0 =
      [{ check_name := "settlement_percentage", passed := true,
         details := "Settlement percentage is within limits", severity := "info" }] :=
  ⟨⟨by decide, by decide⟩,
   settlement_check_passes_on_nonpositive_balance {}
     (PlanData.mk (some "settlement") (some 1000000000) none) 0
     (by decide) rfl (by decide)⟩

/-- Modelled from the spec's words for comparison with the code (§4.1
item 2): the contact-window check is claimed to block exactly when the
weekday is prohibited or the clock lies outside the half-open interval
`[contact_hours_start, contact_hours_end)`. -/
def contactWindowBlockedSpec (cfg : ComplianceConfig) (t : TimeCtx) : Prop :=
  t.weekday ∈ cfg.prohibited_days ∨
  ∃ s e, parseTimeHHMM cfg.contact_hours_start = some s ∧
         parseTimeHHMM cfg.contact_hours_end = some e ∧
         ¬ (s ≤ t.timeOfDay ∧ t.timeOfDay < e)

/-- C7 counterexample: at Monday 21:00:00 sharp with the default window
08:00–21:00, the spec's half-open interval `[08:00, 21:00)` puts the clock
outside the window (so the claim says Blocked), but the code compares with
a closed upper bound (`start <= now <= end`) and passes. -/
theorem contact_time_closed_bound_counterexample :
    (checkContactTime {} (TimeCtx.mk 0 75600 0 0 0 0)).passed = true ∧
    contactWindowBlockedSpec {} (TimeCtx.mk 0 75600 0 0 0 0) :=
  ⟨by decide, Or.inr ⟨28800, 75600, by decide, by decide, by decide⟩⟩

/-- C7 amended: the contact-window check blocks exactly when today's
weekday is prohibited, or the hours configuration parses and the clock
lies outside the closed interval `[contact_hours_start,
contact_hours_end]`; an unparsable hours configuration never blocks on
hours (fails open), though a prohibited weekday still blocks; every blocked
outcome has severity warning. -/
theorem contact_time_blocks_iff (cfg : ComplianceConfig) (t : TimeCtx) :
    ((checkContactTime cfg t).passed = false ↔
      t.weekday ∈ cfg.prohibited_days ∨
      ∃ s e, parseTimeHHMM cfg.contact_hours_start = some s ∧
             parseTimeHHMM cfg.contact_hours_end = some e ∧
             ¬ (s ≤ t.timeOfDay ∧ t.timeOfDay ≤ e)) ∧
    ((checkContactTime cfg t).passed = false →
      (checkContactTime cfg t).severity = "warning") := by
  unfold checkContactTime
  by_cases hw : t.weekday ∈ cfg.prohibited_days
  · simp [hw]
  · simp only [hw, if_neg, ite_false]
    rcases hs : parseTimeHHMM cfg.contact_hours_start with _ | s
    · simp [hs, hw]
    · rcases he : parseTimeHHMM cfg.contact_hours_end with _ | e
      · simp [hs, he, hw]
      · by_cases hin : s ≤ t.timeOfDay ∧ t.timeOfDay ≤ e
        · simp [hs, he, hw, hin]
        · simp [hs, he, hw, hin]
          omega

/-- Witness for C7 amended: Sunday is blocked via the weekday arm. -/
theorem contact_time_blocks_iff_witness :
    ((6 : Nat) ∈ ComplianceConfig.prohibited_days {}) ∧
    (checkContactTime {} (TimeCtx.mk 6 36000 0 0 0 0)).passed = false :=
  ⟨by decide,
   (contact_time_blocks_iff {} (TimeCtx.mk 6 36000 0 0 0 0)).1.mpr
     (Or.inl (by decide))⟩

/-- C3: whenever validation finds at least one violation and the proposal's
escalation flag is false, the validator returns a replacement with action
Escalate, escalation flag true, the neutral hand-off text, no structured
plan, and `validation_failed` appended to the compliance checks; the
violating proposal is never returned unmodified. -/
theorem validator_rewrites_on_violation (cfg : ComplianceConfig)
    (r : AssistantResponse) (v : Bool)
    (herr : validationErrors cfg r v ≠ []) (hesc : r.escalation = false) :
    (validateResponse cfg r v).action = ActionType.escalate ∧
    (validateResponse cfg r v).escalation = true ∧
    (validateResponse cfg r v).message_to_user = handoffMessage ∧
    (validateResponse cfg r v).structured_plan = none ∧
    (validateResponse cfg r v).compliance_checks =
      r.compliance_checks ++ ["validation_failed"] ∧
    validateResponse cfg r v ≠ r := by
  have hcond : validationErrors cfg r v ≠ [] ∧ ¬ r.escalation := ⟨herr, by simp [hesc]⟩
  have hEq : validateResponse cfg r v =
      { r with action := ActionType.escalate, escalation := true,
               message_to_user := handoffMessage, structured_plan := none,
               compliance_checks := r.compliance_checks ++ ["validation_failed"] } := by
    rw [validateResponse, if_pos hcond]
  rw [hEq]
  refine ⟨rfl, rfl, rfl, rfl, rfl, fun h => ?_⟩
  have hb := congrArg AssistantResponse.escalation h
  simp [hesc] at hb

/-- A generated proposal whose message carries prohibited vocabulary. -/
def violatingProposal : AssistantResponse :=
  { action := ActionType.inform,
    message_to_user := "Pay now or we will sue you.",
    structured_plan := none,
    confidence := 1,
    escalation := false,
    compliance_checks := ["tone_reviewed"] }

/-- Witness for C3 at a proposal containing the word `sue`. -/
theorem validator_rewrites_on_violation_witness :
    (validationErrors {} violatingProposal true ≠ [] ∧
      violatingProposal.escalation = false) ∧
    (validateResponse {} violatingProposal true).action = ActionType.escalate ∧
    validateResponse {} violatingProposal true ≠ violatingProposal :=
  ⟨⟨by decide, rfl⟩,
   (validator_rewrites_on_violation {} violatingProposal true (by decide) rfl).1,
   (validator_rewrites_on_violation {} violatingProposal true (by decide) rfl).2.2.2.2.2⟩

/-- A settlement plan worth more than 70% of a 1200 balance. -/
def settlementPlan1400 : StructuredPlan :=
  { type := PlanType.settlement, amount := 1400 }

/-- A non-escalating proposal carrying `settlementPlan1400`. -/
def proposal1400 : AssistantResponse :=
  { action := ActionType.propose_plan,
    message_to_user := "Let me put together the paperwork for that option.",
    structured_plan := some settlementPlan1400,
    confidence := 1,
    escalation := false,
    compliance_checks := [] }

/-- C1 counterexample: against a current balance of 1200, the attached
settlement amount 1400 has ratio above 0.70, yet `validateResponse` (for a
verified conversation and a clean message) returns the proposal unmodified
with action ProposePlan — `LLMService._validate_payment_plan` never
computes the settlement ratio, so the claimed forced Escalate does not
happen. -/
theorem settlement_ceiling_not_enforced_counterexample :
    proposal1400.structured_plan = some settlementPlan1400 ∧
    settlementPlan1400.type = PlanType.settlement ∧
    settlementPlan1400.amount / 1200 > ratio70 ∧
    proposal1400.escalation = false ∧
    validateResponse {} proposal1400 true = proposal1400 ∧
    (validateResponse {} proposal1400 true).action ≠ ActionType.escalate :=
  ⟨rfl, rfl, by rw [ratio70_eq]; norm_num [settlementPlan1400], rfl, by decide, by decide⟩

/-- C1 amended: the response validator does not enforce the settlement
ceiling (the balance is not available to it); for a proposal carrying a
settlement plan the only plan-policy check is amount positivity, so a plan
with positive amount — regardless of its ratio to the balance — yields no
plan violations and, absent content violations, the proposal passes
through unmodified; only a non-positive settlement amount (with the
escalation flag false) forces action = Escalate. -/
theorem settlement_validation_checks_positivity_only (cfg : ComplianceConfig)
    (r : AssistantResponse) (p : StructuredPlan) (v : Bool)
    (hp : r.structured_plan = some p) (ht : p.type = PlanType.settlement) :
    (0 < p.amount → validatePaymentPlanLLM cfg p = []) ∧
    (p.amount ≤ 0 →
      validatePaymentPlanLLM cfg p = ["Settlement amount must be positive"]) ∧
    (0 < p.amount → checkComplianceLLM r v = [] → validateResponse cfg r v = r) ∧
    (p.amount ≤ 0 → r.escalation = false →
      (validateResponse cfg r v).action = ActionType.escalate ∧
      (validateResponse cfg r v).escalation = true) := by
  have hplan_pos : 0 < p.amount → validatePaymentPlanLLM cfg p = [] := by
    intro hpos
    simp [validatePaymentPlanLLM, ht, not_le.mpr hpos]
  have hplan_neg : p.amount ≤ 0 →
      validatePaymentPlanLLM cfg p = ["Settlement amount must be positive"] := by
    intro hneg
    simp [validatePaymentPlanLLM, ht, hneg]
  refine ⟨hplan_pos, hplan_neg, ?_, ?_⟩
  · intro hpos hcc
    have herr : validationErrors cfg r v = [] := by
      simp [validationErrors, hp, hplan_pos hpos, hcc]
    simp [validateResponse, herr]
  · intro hneg hesc
    have herr : validationErrors cfg r v ≠ [] := by
      simp [validationErrors, hp, hplan_neg hneg]
    have hcond : validationErrors cfg r v ≠ [] ∧ ¬ r.escalation := ⟨herr, by simp [hesc]⟩
    rw [validateResponse, if_pos hcond]
    exact ⟨rfl, rfl⟩

/-- A positive settlement plan below nothing in particular. -/
def settlementPlan900 : StructuredPlan :=
  { type := PlanType.settlement, amount := 900 }

/-- A clean, non-escalating proposal carrying `settlementPlan900`. -/
def proposal900 : AssistantResponse :=
  { action := ActionType.propose_plan,
    message_to_user := "Happy to arrange that option for you.",
    structured_plan := some settlementPlan900,
    confidence := 1,
    escalation := false,
    compliance_checks := [] }

/-- Witness for C1 amended: a positive settlement amount passes through. -/
theorem settlement_validation_checks_positivity_only_witness :
    (proposal900.structured_plan = some settlementPlan900 ∧
      settlementPlan900.type = PlanType.settlement ∧
      0 < settlementPlan900.amount ∧
      checkComplianceLLM proposal900 true = []) ∧
    validateResponse {} proposal900 true = proposal900 :=
  ⟨⟨rfl, rfl, by decide, by decide⟩,
   (settlement_validation_checks_positivity_only {} proposal900 settlementPlan900
     true rfl rfl).2.2.1 (by decide) (by decide)⟩

/-- Once the attempt counter has reached the maximum, a verification call
takes the lockout branch: escalation, a fixed message, zero attempts
remaining. -/
theorem verifyIdentity_locked (c : Conversation) (loan : Loan) (b : Borrower)
    (d : VerificationData) (now : Nat)
    (h : c.verification_attempts ≥ maxVerificationAttempts) :
    verifyIdentity c loan b d now =
      (escalateConversation c "Maximum verification attempts exceeded" now,
       { verified := false,
         message := "Maximum verification attempts exceeded. Escalating to human agent.",
         attempts_remaining := 0 }) := by
  rw [verifyIdentity, if_pos h]

/-- A failing verification call below the cap increments the counter and
reports the remaining attempts. -/
theorem verifyIdentity_failed (c : Conversation) (loan : Loan) (b : Borrower)
    (d : VerificationData) (now : Nat)
    (hlt : ¬ c.verification_attempts ≥ maxVerificationAttempts)
    (hf : factsMatch loan b d = false) :
    verifyIdentity c loan b d now =
      ({ c with verification_attempts := c.verification_attempts + 1 },
       { verified := false,
         message := s!"Identity verification failed. {maxVerificationAttempts - (c.verification_attempts + 1)} attempts remaining.",
         attempts_remaining := maxVerificationAttempts - (c.verification_attempts + 1) }) := by
  rw [verifyIdentity, if_neg hlt]
  simp [hf]

/-- A run of verification calls that all fail (and stays within the cap)
bumps the counter by the run length, leaving every other field alone, and
returns no Verified result. -/
theorem verifySeq_all_fail (loan : Loan) (b : Borrower) (now : Nat) :
    ∀ (ds : List VerificationData) (c : Conversation),
      (∀ d ∈ ds, factsMatch loan b d = false) →
      c.verification_attempts + ds.length ≤ maxVerificationAttempts →
      (verifySeq loan b now c ds).1 =
        { c with verification_attempts := c.verification_attempts + ds.length } ∧
      ∀ r ∈ (verifySeq loan b now c ds).2, r.verified = false := by
  intro ds
  induction ds with
  | nil =>
    intro c _ _
    refine ⟨?_, by simp [verifySeq]⟩
    show c = _
    simp
  | cons d ds ih =>
    intro c hall hlen
    have hlt : ¬ c.verification_attempts ≥ maxVerificationAttempts := by
      simp only [List.length_cons] at hlen
      omega
    have hfail : factsMatch loan b d = false := hall d (List.mem_cons_self d ds)
    have hstep := verifyIdentity_failed c loan b d now hlt hfail
    have hlen' : ({ c with verification_attempts := c.verification_attempts + 1} :
        Conversation).verification_attempts + ds.length ≤ maxVerificationAttempts := by
      simp only [List.length_cons] at hlen
      simpa using by omega
    obtain ⟨ih1, ih2⟩ := ih { c with verification_attempts := c.verification_attempts + 1 }
      (fun x hx => hall x (List.mem_cons_of_mem d hx)) hlen'
    constructor
    · show (verifySeq loan b now (verifyIdentity c loan b d now).1 ds).1 = _
      rw [hstep]
      rw [ih1]
      simp [Nat.add_assoc, Nat.add_comm 1 ds.length]
    · intro r hr
      simp only [verifySeq, List.mem_cons] at hr
      rcases hr with hr | hr
      · rw [hr, hstep]
      · exact ih2 r (by simpa [hstep] using hr)

/-- After the cap is reached, every further verification call in a
sequence is rejected (the counter never moves again, so the lockout branch
repeats forever). -/
theorem verifySeq_locked (loan : Loan) (b : Borrower) (now : Nat) :
    ∀ (ds : List VerificationData) (c : Conversation),
      c.verification_attempts ≥ maxVerificationAttempts →
      ∀ r ∈ (verifySeq loan b now c ds).2, r.verified = false := by
  intro ds
  induction ds with
  | nil => intro c _ r hr; simp [verifySeq] at hr
  | cons d ds ih =>
    intro c hge r hr
    have hstep := verifyIdentity_locked c loan b d now hge
    simp only [verifySeq, List.mem_cons] at hr
    rcases hr with hr | hr
    · rw [hr, hstep]
    · refine ih _ ?_ r (by simpa [hstep] using hr)
      simpa [hstep, escalateConversation] using hge

/-- C2: starting from a fresh attempt counter, three consecutive failing
identity checks drive the counter to `max_verification_attempts` (3); the
call made immediately afterwards — with any data, even correct facts —
returns an unverified result with `attempts_remaining = 0` and leaves the
conversation Escalated, and no sequence of further calls ever returns
Verified. -/
theorem identity_lockout_after_max_failures (c : Conversation) (loan : Loan)
    (b : Borrower) (now now2 : Nat) (d1 d2 d3 d : VerificationData)
    (ds : List VerificationData)
    (h0 : c.verification_attempts = 0)
    (h1 : factsMatch loan b d1 = false)
    (h2 : factsMatch loan b d2 = false)
    (h3 : factsMatch loan b d3 = false) :
    (verifySeq loan b now c [d1, d2, d3]).1.verification_attempts =
      maxVerificationAttempts ∧
    (verifyIdentity (verifySeq loan b now c [d1, d2, d3]).1 loan b d now2).2.verified
      = false ∧
    (verifyIdentity (verifySeq loan b now c [d1, d2, d3]).1 loan b d
      now2).2.attempts_remaining = 0 ∧
    (verifyIdentity (verifySeq loan b now c [d1, d2, d3]).1 loan b d now2).1.state =
      ConversationState.escalated ∧
    ∀ r ∈ (verifySeq loan b now2 (verifySeq loan b now c [d1, d2, d3]).1 ds).2,
      r.verified = false := by
  have hall : ∀ x ∈ [d1, d2, d3], factsMatch loan b x = false := by
    intro x hx
    simp only [List.mem_cons, List.not_mem_nil, or_false] at hx
    rcases hx with rfl | rfl | rfl <;> assumption
  have hlen : c.verification_attempts + ([d1, d2, d3] : List VerificationData).length ≤
      maxVerificationAttempts := by
    simp [h0, maxVerificationAttempts]
  obtain ⟨hconv, _⟩ := verifySeq_all_fail loan b now [d1, d2, d3] c hall hlen
  have hva : (verifySeq loan b now c [d1, d2, d3]).1.verification_attempts =
      maxVerificationAttempts := by
    rw [hconv]
    simp [h0, maxVerificationAttempts]
  have hge : (verifySeq loan b now c [d1, d2, d3]).1.verification_attempts ≥
      maxVerificationAttempts := le_of_eq hva.symm
  have hcall := verifyIdentity_locked _ loan b d now2 hge
  refine ⟨hva, by rw [hcall], by rw [hcall], by rw [hcall]; rfl,
    verifySeq_locked loan b now2 ds _ hge⟩

/-- A loan/borrower pair for concrete verification runs. -/
def loanW : Loan :=
  { id := 1, borrower_id := 1, current_balance := 1200, last_payment_amount := some 150 }

/-- The borrower whose SSN tail is `1234`. -/
def borrowerW : Borrower := { id := 1, ssn_last_four := "1234", opt_out_date := none }

/-- A conversation in identity verification with a fresh attempt counter. -/
def convW : Conversation :=
  { id := 1, conversation_id := "sess-1", borrower_id := 1, loan_id := 1,
    state := ConversationState.identity_verification, channel := "chat",
    identity_verified := false, verification_attempts := 0,
    escalation_reason := none, escalation_date := none,
    last_activity := 0, created_at := 0 }

/-- A claimed SSN tail that does not match `borrowerW`. -/
def wrongSsn : VerificationData := { last_four_ssn := some "9999" }

/-- The correct SSN tail for `borrowerW`. -/
def rightSsn : VerificationData := { last_four_ssn := some "1234" }

/-- Witness for C2: three wrong-SSN attempts, then even the correct SSN is
rejected with zero attempts remaining and an escalated conversation. -/
theorem identity_lockout_after_max_failures_witness :
    (convW.verification_attempts = 0 ∧ factsMatch loanW borrowerW wrongSsn = false) ∧
    (verifySeq loanW borrowerW 1 convW [wrongSsn, wrongSsn, wrongSsn]).1.verification_attempts
      = maxVerificationAttempts ∧
    (verifyIdentity (verifySeq loanW borrowerW 1 convW [wrongSsn, wrongSsn, wrongSsn]).1
      loanW borrowerW rightSsn 2).2.verified = false ∧
    (verifyIdentity (verifySeq loanW borrowerW 1 convW [wrongSsn, wrongSsn, wrongSsn]).1
      loanW borrowerW rightSsn 2).2.attempts_remaining = 0 ∧
    (verifyIdentity (verifySeq loanW borrowerW 1 convW [wrongSsn, wrongSsn, wrongSsn]).1
      loanW borrowerW rightSsn 2).1.state = ConversationState.escalated :=
  ⟨⟨rfl, by decide⟩,
   (identity_lockout_after_max_failures convW loanW borrowerW 1 2 wrongSsn wrongSsn
     wrongSsn rightSsn [] rfl (by decide) (by decide) (by decide)).1,
   (identity_lockout_after_max_failures convW loanW borrowerW 1 2 wrongSsn wrongSsn
     wrongSsn rightSsn [] rfl (by decide) (by decide) (by decide)).2.1,
   (identity_lockout_after_max_failures convW loanW borrowerW 1 2 wrongSsn wrongSsn
     wrongSsn rightSsn [] rfl (by decide) (by decide) (by decide)).2.2.1,
   (identity_lockout_after_max_failures convW loanW borrowerW 1 2 wrongSsn wrongSsn
     wrongSsn rightSsn [] rfl (by decide) (by decide) (by decide)).2.2.2.1⟩

/-- C8: the verification-attempt counter never exceeds the configured
maximum — starting at or below the cap, no sequence of verification calls
raises it above the cap (the lockout branch stops incrementing). -/
theorem verification_attempts_never_exceed_max (loan : Loan) (b : Borrower)
    (now : Nat) (ds : List VerificationData) (c : Conversation)
    (h : c.verification_attempts ≤ maxVerificationAttempts) :
    (verifySeq loan b now c ds).1.verification_attempts ≤ maxVerificationAttempts := by
  induction ds generalizing c with
  | nil => simpa [verifySeq] using h
  | cons d ds ih =>
    have hstep : (verifyIdentity c loan b d now).1.verification_attempts ≤
        maxVerificationAttempts := by
      by_cases hge : c.verification_attempts ≥ maxVerificationAttempts
      · rw [verifyIdentity_locked c loan b d now hge]
        simpa [escalateConversation] using h
      · rw [verifyIdentity, if_neg hge]
        cases hf : factsMatch loan b d <;> simp [hf] <;> omega
    simpa only [verifySeq] using ih _ hstep

/-- A conversation that has already burned two verification attempts. -/
def convW8 : Conversation :=
  { id := 2, conversation_id := "sess-2", borrower_id := 1, loan_id := 1,
    state := ConversationState.identity_verification, channel := "chat",
    identity_verified := false, verification_attempts := 2,
    escalation_reason := none, escalation_date := none,
    last_activity := 0, created_at := 0 }

/-- Witness for C8: five more calls from counter 2 never push it past 3. -/
theorem verification_attempts_never_exceed_max_witness :
    convW8.verification_attempts ≤ maxVerificationAttempts ∧
    (verifySeq loanW borrowerW 4 convW8
      [wrongSsn, wrongSsn, wrongSsn, rightSsn, wrongSsn]).1.verification_attempts ≤
      maxVerificationAttempts :=
  ⟨by decide,
   verification_attempts_never_exceed_max loanW borrowerW 4
     [wrongSsn, wrongSsn, wrongSsn, rightSsn, wrongSsn] convW8 (by decide)⟩

/-- Shape of a successful schedule build: `k` rows, each carrying the
per-installment amount and consecutive installment numbers, the first row
due on the start date, and each later due date one frequency step after
its predecessor. -/
theorem buildSchedule_spec (planId : Nat) (freq : String) (amount : ℚ) :
    ∀ (k : Nat) (d : Date) (i : Nat) (rows : List ScheduledPaymentRec),
      buildSchedule planId freq amount d i k = some rows →
      rows.length = k ∧
      (∀ j (hj : j < rows.length),
        (rows.get ⟨j, hj⟩).amount = amount ∧
        (rows.get ⟨j, hj⟩).installment_number = i + j + 1) ∧
      (∀ (h0 : 0 < rows.length), (rows.get ⟨0, h0⟩).due_date = d) ∧
      (∀ j (hj : j + 1 < rows.length),
        stepDate freq ((rows.get ⟨j, Nat.lt_of_succ_lt hj⟩).due_date) =
          some ((rows.get ⟨j + 1, hj⟩).due_date)) := by
  intro k
  induction k with
  | zero =>
    intro d i rows h
    simp only [buildSchedule, Option.some.injEq] at h
    subst h
    refine ⟨rfl, ?_, ?_, ?_⟩
    · intro j hj; exact absurd hj (Nat.not_lt_zero j)
    · intro h0; exact absurd h0 (Nat.lt_irrefl 0)
    · intro j hj; exact absurd hj (Nat.not_lt_zero (j + 1))
  | succ k ih =>
    intro d i rows h
    simp only [buildSchedule] at h
    rcases hstep : stepDate freq d with _ | d'
    · rw [hstep] at h; exact absurd h (by simp)
    · rw [hstep] at h
      simp only [Option.map_eq_some'] at h
      obtain ⟨rest, hrest, hrows⟩ := h
      subst hrows
      obtain ⟨hlen, hvals, hhead, hchain⟩ := ih d' (i + 1) rest hrest
      refine ⟨by simp [hlen], ?_, ?_, ?_⟩
      · intro j hj
        match j with
        | 0 => exact ⟨rfl, show i + 1 = i + 0 + 1 by omega⟩
        | j + 1 =>
          have hj' : j < rest.length := by simpa using hj
          obtain ⟨ha, hn⟩ := hvals j hj'
          refine ⟨ha, ?_⟩
          show (rest.get ⟨j, hj'⟩).installment_number = i + (j + 1) + 1
          rw [hn]; omega
      · intro _; rfl
      · intro j hj
        match j with
        | 0 =>
          have h0 : 0 < rest.length := by simpa using hj
          show stepDate freq d = some ((rest.get ⟨0, h0⟩).due_date)
          rw [hhead h0, hstep]
        | j + 1 =>
          have hj' : j + 1 < rest.length := by simpa using hj
          exact hchain j hj'

/-- C5 amended: (1) every successfully built installment plan with a
declared non-zero installment count yields a schedule with exactly that
many rows, each row carrying the per-installment amount and the
consecutive installment number, the first row due on the plan's first
payment date and each later date one frequency step (weekly +7 days,
bi-weekly +14 days, monthly +1 calendar month with December-to-January
rollover) after its predecessor; (2) non-installment kinds — and
installment proposals without a truthy declared count — produce a schedule
with no rows at all (not 1 row). -/
theorem payment_schedule_shape :
    (∀ (sp : StructuredPlan) (loanId convId planId : Nat) (nowDate : Date)
       (n : Nat) (plan : PaymentPlanRec) (rows : List ScheduledPaymentRec),
      sp.type = PlanType.installment → sp.installments = some n → n ≠ 0 →
      createPaymentPlan loanId convId planId sp nowDate = some (plan, rows) →
      rows.length = n ∧ plan.number_of_installments = n ∧
      (∀ j (hj : j < rows.length),
        (rows.get ⟨j, hj⟩).amount = plan.installment_amount ∧
        (rows.get ⟨j, hj⟩).installment_number = j + 1) ∧
      (∀ (h0 : 0 < rows.length),
        (rows.get ⟨0, h0⟩).due_date = plan.first_payment_date) ∧
      (∀ j (hj : j + 1 < rows.length),
        stepDate plan.payment_frequency ((rows.get ⟨j, Nat.lt_of_succ_lt hj⟩).due_date)
          = some ((rows.get ⟨j + 1, hj⟩).due_date))) ∧
    (∀ (sp : StructuredPlan) (loanId convId planId : Nat) (nowDate : Date)
       (plan : PaymentPlanRec) (rows : List ScheduledPaymentRec),
      ¬ (sp.type = PlanType.installment ∧ truthyInstallments sp.installments) →
      createPaymentPlan loanId convId planId sp nowDate = some (plan, rows) →
      rows = []) := by
  constructor
  · intro sp loanId convId planId nowDate n plan rows ht hn hn0 hbuild
    have hcond : sp.type = PlanType.installment ∧ truthyInstallments sp.installments := by
      refine ⟨ht, ?_⟩
      simp [truthyInstallments, hn, hn0]
    rw [createPaymentPlan, if_pos hcond, Option.map_eq_some'] at hbuild
    obtain ⟨rows0, hrows0, hpair⟩ := hbuild
    have hplan : plan = mkPaymentPlanRec loanId convId planId sp nowDate :=
      (congrArg Prod.fst hpair).symm
    have hrows : rows0 = rows := congrArg Prod.snd hpair
    subst hrows
    have hnum : plan.number_of_installments = n := by
      rw [hplan]
      simp [mkPaymentPlanRec, orOneNat, hn, hn0]
    rw [createScheduledPayments] at hrows0
    obtain ⟨hlen, hvals, hhead, hchain⟩ :=
      buildSchedule_spec _ _ _ _ _ _ _ hrows0
    refine ⟨by rw [hlen, ← hplan, hnum], by rw [hnum], ?_, ?_, ?_⟩
    · intro j hj
      obtain ⟨ha, hb⟩ := hvals j hj
      exact ⟨by rw [ha, hplan], by rw [hb]; omega⟩
    · intro h0
      rw [hhead h0, hplan]
    · intro j hj
      have := hchain j hj
      rw [← hplan] at this
      exact this
  · intro sp loanId convId planId nowDate plan rows hneg hbuild
    rw [createPaymentPlan, if_neg hneg, Option.some.injEq] at hbuild
    exact (congrArg Prod.snd hbuild).symm

/-- A settlement proposal plan (a non-installment kind). -/
def settlementProposalPlan : StructuredPlan :=
  { type := PlanType.settlement, amount := 600 }

/-- C5 counterexample: a successfully built settlement (non-installment)
plan produces a schedule with 0 rows — `_create_scheduled_payments` is
only invoked for installment plans — whereas the claim says non-installment
kinds produce exactly 1 row. -/
theorem non_installment_schedule_empty_counterexample :
    settlementProposalPlan.type ≠ PlanType.installment ∧
    (createPaymentPlan 7 7 2 settlementProposalPlan ⟨2025, 10, 1⟩).map
      (fun pr => pr.2.length) = some 0 ∧
    (createPaymentPlan 7 7 2 settlementProposalPlan ⟨2025, 10, 1⟩).map
      (fun pr => pr.2.length) ≠ some 1 := by
  refine ⟨by decide, by decide, by decide⟩

/-- The spec's worked example: 200 per installment, 6 monthly installments,
first due 2025-11-10. -/
def installmentSp6 : StructuredPlan :=
  { type := PlanType.installment, amount := 200, installments := some 6,
    first_due_date := some ⟨2025, 11, 10⟩, frequency := some "monthly" }

/-- The plan row the example builds. -/
def installmentPlan6 : PaymentPlanRec :=
  { id := 1, loan_id := 5, conversation_id := 5,
    plan_type := PaymentPlanType.installment,
    total_amount := 200, installment_amount := 200,
    number_of_installments := 6, first_payment_date := ⟨2025, 11, 10⟩,
    payment_frequency := "monthly", status := "proposed" }

/-- The example's six schedule rows: 2025-11-10, 2025-12-10, 2026-01-10,
2026-02-10, 2026-03-10, 2026-04-10, each for 200. -/
def installmentRows6 : List ScheduledPaymentRec :=
  [{ payment_plan_id := 1, installment_number := 1, due_date := ⟨2025, 11, 10⟩,
     amount := 200, status := "pending" },
   { payment_plan_id := 1, installment_number := 2, due_date := ⟨2025, 12, 10⟩,
     amount := 200, status := "pending" },
   { payment_plan_id := 1, installment_number := 3, due_date := ⟨2026, 1, 10⟩,
     amount := 200, status := "pending" },
   { payment_plan_id := 1, installment_number := 4, due_date := ⟨2026, 2, 10⟩,
     amount := 200, status := "pending" },
   { payment_plan_id := 1, installment_number := 5, due_date := ⟨2026, 3, 10⟩,
     amount := 200, status := "pending" },
   { payment_plan_id := 1, installment_number := 6, due_date := ⟨2026, 4, 10⟩,
     amount := 200, status := "pending" }]

/-- Witness for C5 amended: the spec's worked example builds exactly the
six monthly rows (with year rollover at December), and the shape theorem
applies to it. -/
theorem payment_schedule_shape_witness :
    (installmentSp6.type = PlanType.installment ∧
      installmentSp6.installments = some 6 ∧ (6 : Nat) ≠ 0 ∧
      createPaymentPlan 5 5 1 installmentSp6 ⟨2025, 10, 20⟩ =
        some (installmentPlan6, installmentRows6)) ∧
    installmentRows6.length = 6 ∧ installmentPlan6.number_of_installments = 6 :=
  ⟨⟨rfl, rfl, by decide, by decide⟩,
   (payment_schedule_shape.1 installmentSp6 5 5 1 ⟨2025, 10, 20⟩ 6
     installmentPlan6 installmentRows6 rfl rfl (by decide) (by decide)).1,
   (payment_schedule_shape.1 installmentSp6 5 5 1 ⟨2025, 10, 20⟩ 6
     installmentPlan6 installmentRows6 rfl rfl (by decide) (by decide)).2.1⟩

/-- A structured installment proposal: 200 per installment, 6 weekly
installments, first due 2026-01-15. -/
def installmentSpBug : StructuredPlan :=
  { type := PlanType.installment, amount := 200, installments := some 6,
    first_due_date := some ⟨2026, 1, 15⟩, frequency := some "weekly" }

/-- The plan row built from `installmentSpBug`. -/
def installmentPlanBug : PaymentPlanRec :=
  { id := 1, loan_id := 3, conversation_id := 3,
    plan_type := PaymentPlanType.installment,
    total_amount := 200, installment_amount := 200,
    number_of_installments := 6, first_payment_date := ⟨2026, 1, 15⟩,
    payment_frequency := "weekly", status := "proposed" }

/-- The six weekly schedule rows built from `installmentSpBug`. -/
def installmentRowsBug : List ScheduledPaymentRec :=
  [{ payment_plan_id := 1, installment_number := 1, due_date := ⟨2026, 1, 15⟩,
     amount := 200, status := "pending" },
   { payment_plan_id := 1, installment_number := 2, due_date := ⟨2026, 1, 22⟩,
     amount := 200, status := "pending" },
   { payment_plan_id := 1, installment_number := 3, due_date := ⟨2026, 1, 29⟩,
     amount := 200, status := "pending" },
   { payment_plan_id := 1, installment_number := 4, due_date := ⟨2026, 2, 5⟩,
     amount := 200, status := "pending" },
   { payment_plan_id := 1, installment_number := 5, due_date := ⟨2026, 2, 12⟩,
     amount := 200, status := "pending" },
   { payment_plan_id := 1, installment_number := 6, due_date := ⟨2026, 2, 19⟩,
     amount := 200, status := "pending" }]

/-- C9: `_create_payment_plan` records `structured_plan.amount` as both
`total_amount` and `installment_amount` (the source conditional has
identical branches), so for the 6 × 200 installment proposal the stored
plan has installment count × per-installment amount = 1200 while the
recorded total is 200 — the invariant count × installment ≈ total fails
for every count other than 1. -/
theorem installment_total_amount_bug :
    createPaymentPlan 3 3 1 installmentSpBug ⟨2025, 12, 1⟩ =
      some (installmentPlanBug, installmentRowsBug) ∧
    installmentPlanBug.total_amount = 200 ∧
    installmentPlanBug.installment_amount = 200 ∧
    installmentPlanBug.number_of_installments = 6 ∧
    (installmentPlanBug.number_of_installments : ℚ) *
      installmentPlanBug.installment_amount ≠ installmentPlanBug.total_amount := by
  refine ⟨by decide, rfl, rfl, rfl, ?_⟩
  norm_num [installmentPlanBug]

/-- C4: whenever the contact-compliance gate blocks a turn, `processMessage`
returns the fixed blocked response and the persistent store is returned
exactly as it was: the inbound message is not recorded, no conversation
field change survives (the pending `last_activity` refresh is never
committed), and no newly created conversation row becomes persistent. -/
theorem blocked_turn_is_pure (cfg : ComplianceConfig) (db : Db) (t : TimeCtx)
    (nowDate : Date) (inp : TurnInput) (conv : Conversation) (isNew : Bool)
    (loan : Loan) (borrower : Borrower)
    (hconv : getOrCreateConversation db inp.loan_id inp.session_id inp.channel
      inp.fresh_uuid t.now = Except.ok (conv, isNew))
    (hstate : conv.state ≠ ConversationState.opted_out)
    (hloan : findLoan db inp.loan_id = some loan)
    (hb : findBorrower db loan.borrower_id = some borrower)
    (hgate : (checkContactCompliance cfg borrower t
      (countDailyConversations (upsertConversation db.conversations isNew conv)
        borrower.id t)
      (countWeeklyConversations (upsertConversation db.conversations isNew conv)
        borrower.id t)).allowed = false) :
    processMessage cfg db t nowDate inp =
      Except.ok (complianceBlockedResponse conv.conversation_id
        ((checkContactCompliance cfg borrower t
          (countDailyConversations (upsertConversation db.conversations isNew conv)
            borrower.id t)
          (countWeeklyConversations (upsertConversation db.conversations isNew conv)
            borrower.id t)).reason.getD ""), db) := by
  unfold processMessage
  rw [hconv]
  simp only [hloan, hb, hstate, ite_false, if_neg, hgate, Bool.false_eq_true,
    not_false_eq_true, ite_true, if_pos]

/-- A loan owned by the opted-out borrower below. -/
def loanW4 : Loan :=
  { id := 9, borrower_id := 9, current_balance := 500, last_payment_amount := none }

/-- An opted-out borrower, which makes the gate block. -/
def borrowerW4 : Borrower := { id := 9, ssn_last_four := "5678", opt_out_date := some 3 }

/-- A store with one loan and one borrower and no conversations yet. -/
def dbW4 : Db :=
  { conversations := [], messages := [], loans := [loanW4],
    borrowers := [borrowerW4], paymentPlans := [], scheduledPayments := [] }

/-- A Wednesday mid-morning time context. -/
def tW4 : TimeCtx :=
  { weekday := 2, timeOfDay := 36000, todayStart := 0, todayEnd := 100,
    weekStart := 0, now := 50 }

/-- An inbound turn for loan 9 on a fresh session. -/
def inpW4 : TurnInput :=
  { user_message := "hello", loan_id := 9, session_id := "sess-9",
    channel := "chat", generated := none, fresh_uuid := "u-1" }

/-- The pending conversation the turn would create for `inpW4`. -/
def convW4 : Conversation :=
  { id := 1, conversation_id := "sess-9", borrower_id := 9, loan_id := 9,
    state := ConversationState.initiated, channel := "chat",
    identity_verified := false, verification_attempts := 0,
    escalation_reason := none, escalation_date := none,
    last_activity := 50, created_at := 50 }

/-- Witness for C4: the blocked turn returns the fixed blocked response and
the store comes back unchanged. -/
theorem blocked_turn_is_pure_witness :
    (getOrCreateConversation dbW4 inpW4.loan_id inpW4.session_id inpW4.channel
        inpW4.fresh_uuid tW4.now = Except.ok (convW4, true) ∧
      convW4.state ≠ ConversationState.opted_out ∧
      findLoan dbW4 inpW4.loan_id = some loanW4 ∧
      findBorrower dbW4 loanW4.borrower_id = some borrowerW4 ∧
      (checkContactCompliance {} borrowerW4 tW4
        (countDailyConversations (upsertConversation dbW4.conversations true convW4)
          borrowerW4.id tW4)
        (countWeeklyConversations (upsertConversation dbW4.conversations true convW4)
          borrowerW4.id tW4)).allowed = false) ∧
    processMessage {} dbW4 tW4 ⟨2025, 10, 1⟩ inpW4 =
      Except.ok (complianceBlockedResponse "sess-9"
        "Borrower has opted out of communications", dbW4) :=
  ⟨⟨by rfl, by decide, by decide, by decide, by decide⟩,
   blocked_turn_is_pure {} dbW4 tW4 ⟨2025, 10, 1⟩ inpW4 convW4 true loanW4
     borrowerW4 (by rfl) (by decide) (by decide) (by decide) (by decide)⟩

end DebtRecovery
